import Mathlib

/-!
Shallow embedding of the authentication / tenant-isolation core of the
`hippa-compliant-railway-stack` backend:

* `backend/app/auth/tenant_extractor.py` — `TenantExtractor`
* `backend/app/auth/jwt_validator.py`    — `JWTValidator`
* `backend/app/auth/jwks_cache.py`       — `JWKSCache`
* `backend/app/middleware/logging.py` and
  `backend/app/middleware/tenant_context.py` — context-variable handling

Python dynamic values that the code inspects for truthiness are embedded as
`ClaimValue`; dictionaries become association lists; functions that raise
become `Except`-valued functions; network fetches and library calls become
explicit oracle parameters describing their outcome.
-/

namespace HipaaStack

/-- A Python value as it can appear in a JWT claims dictionary (or a JWKS
key dictionary field): string, integer, boolean, or `None`.  Absent
dictionary entries are embedded as `pyNone`, matching `dict.get`'s default. -/
inductive ClaimValue : Type where
  | str : String → ClaimValue
  | int : Int → ClaimValue
  | bool : Bool → ClaimValue
  | pyNone : ClaimValue
  deriving DecidableEq, Repr

/-- Python truthiness (`if value:`) for the embedded values:
`""`, `0`, `False` and `None` are falsy, everything else truthy. -/
def ClaimValue.truthy : ClaimValue → Bool
  | .str s => !s.isEmpty
  | .int n => n != 0
  | .bool b => b
  | .pyNone => false

/-- Python `str(value)` on the embedded values. -/
def ClaimValue.pyStr : ClaimValue → String
  | .str s => s
  | .int n => toString n
  | .bool b => if b then "True" else "False"
  | .pyNone => "None"

/-- Python numeric view used by arithmetic such as `exp - iat`
(`bool` is an `int` subtype in Python); strings and `None` have no numeric
view and would raise `TypeError`. -/
def ClaimValue.pyNum : ClaimValue → Option Int
  | .int n => some n
  | .bool b => some (if b then 1 else 0)
  | _ => Option.none

/-- A JWT claims dictionary: association list from claim name to value.
Python dictionaries have unique keys; lookups take the first match. -/
abbrev Claims : Type := List (String × ClaimValue)

/-- `claims.get(name)` with absent entries embedded as `pyNone` (first
match wins; Python dictionaries have unique keys). -/
def claimsGet : Claims → String → ClaimValue
  | [], _ => ClaimValue.pyNone
  | (k, v) :: rest, name => if k == name then v else claimsGet rest name

/-! ## TenantExtractor (`backend/app/auth/tenant_extractor.py`) -/

/-- Errors raised by `TenantExtractor` (`TenantExtractionError` subclasses). -/
inductive TenantError : Type where
  | missingClaim : TenantError
  | invalidFormat : String → TenantError
  deriving DecidableEq, Repr

/-- Configuration of a `TenantExtractor` instance (`__init__` parameters,
after the `claim_names or DEFAULT_CLAIM_NAMES` defaulting). -/
structure TenantExtractorCfg : Type where
  claim_names : List String
  validate_format : Bool
  min_length : Nat
  max_length : Nat
  deriving DecidableEq, Repr

/-- `TenantExtractor.DEFAULT_CLAIM_NAMES`. -/
def DEFAULT_CLAIM_NAMES : List String :=
  ["tenant_id", "organization_id", "org_id", "custom:tenant_id"]

/-- A `TenantExtractor()` constructed with all defaults. -/
def defaultExtractor : TenantExtractorCfg :=
  { claim_names := DEFAULT_CLAIM_NAMES
    validate_format := true
    min_length := 3
    max_length := 128 }

/-- Membership in the character class `[a-zA-Z0-9_-]`. -/
def tenantChar (c : Char) : Bool :=
  (('a' ≤ c && c ≤ 'z') || ('A' ≤ c && c ≤ 'Z') ||
   ('0' ≤ c && c ≤ '9') || c == '_' || c == '-')

/-- `re.match(r"^[a-zA-Z0-9_-]+$", s)` as a Boolean.  Python's `$` matches
at the end of the string or just before a single trailing newline, so a
value consisting of one or more class characters followed by one final
`'\n'` also matches. -/
def TENANT_ID_PATTERN_match (s : String) : Bool :=
  let core : List Char → Bool := fun cs => !cs.isEmpty && cs.all tenantChar
  core s.data ||
    (match s.data.getLast? with
     | some c => c == '\n' && core s.data.dropLast
     | Option.none => false)

/-- `TenantExtractor._validate_tenant_id`: returns the raised
`InvalidTenantFormatError` if any, in the order the checks appear in the
source (type, minimum length, maximum length, pattern). -/
def validate_tenant_id (cfg : TenantExtractorCfg) (v : ClaimValue) :
    Option TenantError :=
  match v with
  | .str s =>
      if s.length < cfg.min_length then
        some (TenantError.invalidFormat "too short")
      else if cfg.max_length < s.length then
        some (TenantError.invalidFormat "too long")
      else if !TENANT_ID_PATTERN_match s then
        some (TenantError.invalidFormat "invalid characters")
      else Option.none
  | _ => some (TenantError.invalidFormat "not a string")

/-- The claim-name loop of `TenantExtractor.extract_tenant_id`, over the
remaining names to try. -/
def extract_go (cfg : TenantExtractorCfg) (claims : Claims) :
    List String → Except TenantError String
  | [] => Except.error TenantError.missingClaim
  | name :: rest =>
      let v := claimsGet claims name
      if v.truthy then
        if cfg.validate_format then
          match validate_tenant_id cfg v with
          | some e => Except.error e
          | Option.none => Except.ok v.pyStr
        else Except.ok v.pyStr
      else extract_go cfg claims rest

/-- `TenantExtractor.extract_tenant_id`. -/
def extract_tenant_id (cfg : TenantExtractorCfg) (claims : Claims) :
    Except TenantError String :=
  extract_go cfg claims cfg.claim_names

/-! ## JWTValidator (`backend/app/auth/jwt_validator.py`)

`validate_token` interacts with three effectful collaborators whose
outcomes we embed as oracle inputs:

* `jose.jwt.get_unverified_headers` — yields the header's `kid` entry, or
  raises (malformed token);
* `JWKSCache.get_signing_key` — returns a key, raises `ValueError`, or
  raises some other exception;
* `jose.jwt.decode` — returns the claims dictionary or raises
  `ExpiredSignatureError` / `JWTClaimsError` / `JWTError` / another
  exception.
-/

/-- Outcome of `jwt.get_unverified_headers(token)` followed by
`headers.get("kid")`.  `parseRaises` models the call raising (caught by the
outer handler and rewrapped as a bare `JWTValidationError`). -/
inductive HeaderResult : Type where
  | ok : Option String → HeaderResult
  | parseRaises : HeaderResult
  deriving DecidableEq, Repr

/-- Outcome of `self.jwks_cache.get_signing_key(kid)`. -/
inductive KeyResult : Type where
  | ok : KeyResult
  | valueError : KeyResult
  | otherError : KeyResult
  deriving DecidableEq, Repr

/-- Outcome of `jwt.decode(...)` on the token. -/
inductive DecodeResult : Type where
  | ok : Claims → DecodeResult
  | expiredSig : DecodeResult
  | claimsErr : DecodeResult
  | jwtErr : DecodeResult
  | otherErr : DecodeResult
  deriving DecidableEq, Repr

/-- The oracle outcomes that determine `validate_token`'s behaviour for a
given token string. -/
structure TokenInput : Type where
  header : HeaderResult
  key : KeyResult
  decode : DecodeResult
  deriving DecidableEq, Repr

/-- The `JWTValidationError` hierarchy, by dynamic type:
`TokenExpiredError`, `TokenSignatureError`, `TokenInvalidClaimError`, or
the bare `JWTValidationError` produced by the outer `except Exception`
handler. -/
inductive VError : Type where
  | expired : VError
  | signature : VError
  | invalidClaim : VError
  | validationFailed : VError
  deriving DecidableEq, Repr

/-- Outcome of `JWTValidator._validate_token_lifetime`.  `typeErr` models
`exp - iat` raising `TypeError` on non-numeric values (rewrapped by
`validate_token`'s outer handler). -/
inductive LifetimeOutcome : Type where
  | ok : LifetimeOutcome
  | invalidClaim : String → LifetimeOutcome
  | typeErr : LifetimeOutcome
  deriving DecidableEq, Repr

/-- `JWTValidator._validate_token_lifetime`.  The Python comparison
`(exp - iat) / 60 > max_lifetime_minutes` is modelled with exact rational
division. -/
def validate_token_lifetime (max_lifetime_minutes : Int) (claims : Claims) :
    LifetimeOutcome :=
  let iat := claimsGet claims "iat"
  let expv := claimsGet claims "exp"
  if !iat.truthy || !expv.truthy then
    LifetimeOutcome.invalidClaim "missing iat or exp"
  else
    match iat.pyNum, expv.pyNum with
    | some i, some e =>
        if ((e - i : Int) : ℚ) / 60 > (max_lifetime_minutes : ℚ) then
          LifetimeOutcome.invalidClaim "lifetime exceeds maximum"
        else LifetimeOutcome.ok
    | _, _ => LifetimeOutcome.typeErr

/-- `JWTValidator.validate_token`, as a function of the oracle outcomes for
the given token.  Mirrors the source's control flow: missing/empty `kid`
(`if not kid:`) fails before the key lookup; key-lookup exceptions become
`TokenSignatureError`; decode exceptions map per their type; then the
lifetime check runs; the outer handler rewraps any non-`JWTValidationError`
exception. -/
def validate_token (max_lifetime_minutes : Int) (t : TokenInput) :
    Except VError Claims :=
  match t.header with
  | HeaderResult.parseRaises => Except.error VError.validationFailed
  | HeaderResult.ok kidOpt =>
      if kidOpt.getD "" == "" then Except.error VError.invalidClaim
      else
        match t.key with
        | KeyResult.valueError => Except.error VError.signature
        | KeyResult.otherError => Except.error VError.signature
        | KeyResult.ok =>
            match t.decode with
            | DecodeResult.expiredSig => Except.error VError.expired
            | DecodeResult.claimsErr => Except.error VError.invalidClaim
            | DecodeResult.jwtErr => Except.error VError.signature
            | DecodeResult.otherErr => Except.error VError.validationFailed
            | DecodeResult.ok claims =>
                match validate_token_lifetime max_lifetime_minutes claims with
                | LifetimeOutcome.ok => Except.ok claims
                | LifetimeOutcome.invalidClaim _ =>
                    Except.error VError.invalidClaim
                | LifetimeOutcome.typeErr =>
                    Except.error VError.validationFailed

/-! ## JWKSCache (`backend/app/auth/jwks_cache.py`)

The cache state is the pair `(_keys, _cache_time)`.  Network fetches are
embedded as an oracle: a list of per-attempt outcomes consumed by the
retry loop of `_fetch_jwks`.  `jwk.construct` success is embedded as a
Boolean field of the key record.  Wall-clock instants are rationals
(`time.time()` floats). -/

/-- A JWK dictionary as fetched from the endpoint: its `kid` entry (absent
entries are `Option.none`), whether `jose.jwk.construct` succeeds on it,
and an opaque tag distinguishing key material. -/
structure JWK : Type where
  kid : Option String
  constructible : Bool
  material : String
  deriving DecidableEq, Repr

/-- Configuration of a `JWKSCache` instance. -/
structure CacheCfg : Type where
  ttl_seconds : ℚ
  max_retries : Nat
  deriving DecidableEq, Repr

/-- The mutable state `(_keys, _cache_time)` of a `JWKSCache`. -/
structure CacheState : Type where
  keys : List (String × JWK)
  cache_time : Option ℚ
  deriving DecidableEq, Repr

/-- A fresh cache (`_keys = {}`, `_cache_time = None`). -/
def initialCacheState : CacheState :=
  { keys := [], cache_time := Option.none }

/-- Outcome of one HTTP attempt inside `_fetch_jwks`: the request raised an
`httpx` error, or it succeeded and the response body's `keys` array parsed
to the given list. -/
inductive Attempt : Type where
  | httpError : Attempt
  | ok : List JWK → Attempt
  deriving DecidableEq, Repr

/-- Overall outcome of `_fetch_jwks`: the fetched key list, or the raised
`httpx` error after all retries were exhausted. -/
inductive FetchResult : Type where
  | keys : List JWK → FetchResult
  | raiseHttpError : FetchResult
  deriving DecidableEq, Repr

/-- `JWKSCache._fetch_jwks`: walks the retry loop over the per-attempt
outcomes (the list has one entry per allowed attempt, `max_retries` many);
the first success returns its keys, and if every attempt raises, the last
error is re-raised. -/
def fetch_jwks : List Attempt → FetchResult
  | [] => FetchResult.raiseHttpError
  | Attempt.ok keys :: _ => FetchResult.keys keys
  | Attempt.httpError :: rest => fetch_jwks rest

/-- Python `dict` insertion `m[k] = v`: overwrite in place if the key
exists, else append. -/
def dictInsert (m : List (String × JWK)) (k : String) (v : JWK) :
    List (String × JWK) :=
  if m.any (fun p => p.1 == k) then
    m.map (fun p => if p.1 == k then (k, v) else p)
  else m ++ [(k, v)]

/-- The key-indexing loop of `_refresh_cache`: builds `new_keys` from the
fetched list, skipping keys whose `kid` entry is falsy (`if kid:`). -/
def index_by_kid (ks : List JWK) : List (String × JWK) :=
  ks.foldl
    (fun m key =>
      match key.kid with
      | some kid => if kid ≠ "" then dictInsert m kid key else m
      | Option.none => m)
    []

/-- `JWKSCache._refresh_cache` at instant `now`, with `attempts` feeding
`_fetch_jwks`.  The whole body sits in `try ... except Exception`, so a
failed fetch leaves the state untouched; on success `_keys` and
`_cache_time` are both replaced. -/
def refresh_cache (st : CacheState) (attempts : List Attempt) (now : ℚ) :
    CacheState :=
  match fetch_jwks attempts with
  | FetchResult.raiseHttpError => st
  | FetchResult.keys ks =>
      { keys := index_by_kid ks, cache_time := some now }

/-- `JWKSCache._is_cache_expired` at instant `now`. -/
def is_cache_expired (cfg : CacheCfg) (st : CacheState) (now : ℚ) : Bool :=
  match st.cache_time with
  | Option.none => true
  | some t => decide (cfg.ttl_seconds ≤ now - t)

/-- `JWKSCache._is_cache_stale` at instant `now` (80% of TTL). -/
def is_cache_stale (cfg : CacheCfg) (st : CacheState) (now : ℚ) : Bool :=
  match st.cache_time with
  | Option.none => true
  | some t => decide (cfg.ttl_seconds * (4 / 5 : ℚ) ≤ now - t)

/-- Dictionary lookup `self._keys.get(kid)` (first match wins). -/
def keysGet : List (String × JWK) → String → Option JWK
  | [], _ => Option.none
  | (k, v) :: rest, kid => if k == kid then some v else keysGet rest kid

/-- `JWKSCache.get_key`: refresh if expired, look up, and on a miss
refresh once more and retry the lookup.  `fetchExpired` and `fetchMiss`
are the attempt oracles for the two potential `_refresh_cache` calls. -/
def get_key (cfg : CacheCfg) (st : CacheState) (now : ℚ)
    (fetchExpired fetchMiss : List Attempt) (kid : String) :
    CacheState × Option JWK :=
  let st1 :=
    if is_cache_expired cfg st now then refresh_cache st fetchExpired now
    else st
  match keysGet st1.keys kid with
  | some k => (st1, some k)
  | Option.none =>
      let st2 := refresh_cache st1 fetchMiss now
      (st2, keysGet st2.keys kid)

/-- The `ValueError`s raised by `JWKSCache.get_signing_key`: the requested
`kid` was not found after refresh, or `jwk.construct` failed on the found
key.  No `httpx` error can escape, because `_refresh_cache` catches every
exception. -/
inductive SigningKeyError : Type where
  | keyNotFound : String → SigningKeyError
  | invalidJWK : String → SigningKeyError
  deriving DecidableEq, Repr

/-- `JWKSCache.get_signing_key`. -/
def get_signing_key (cfg : CacheCfg) (st : CacheState) (now : ℚ)
    (fetchExpired fetchMiss : List Attempt) (kid : String) :
    CacheState × Except SigningKeyError JWK :=
  match get_key cfg st now fetchExpired fetchMiss kid with
  | (st', Option.none) =>
      (st', Except.error (SigningKeyError.keyNotFound kid))
  | (st', some keyDict) =>
      if keyDict.constructible then (st', Except.ok keyDict)
      else (st', Except.error (SigningKeyError.invalidJWK kid))

/-- One iteration of the `while True` body of
`JWKSCache._background_refresh`, entered at instant `now`: it sleeps until
the snapshot is stale (80% of TTL), runs `_refresh_cache`, then sleeps the
full TTL.  Returns (pre-refresh wait, state after the refresh, post-refresh
sleep).  The `except Exception ... sleep(60)` cooldown branch of the source
is unreachable from this body, because `_refresh_cache` itself catches
every exception, so the post-refresh sleep is `ttl_seconds` on success and
failure alike. -/
def background_refresh_iteration (cfg : CacheCfg) (st : CacheState)
    (now : ℚ) (attempts : List Attempt) : ℚ × CacheState × ℚ :=
  let wait :=
    match st.cache_time with
    | Option.none => 0
    | some t => max 0 (cfg.ttl_seconds * (4 / 5 : ℚ) - (now - t))
  let st' := refresh_cache st attempts (now + wait)
  (wait, st', cfg.ttl_seconds)

/-! ## Middleware context variables (`backend/app/middleware/logging.py`,
`backend/app/middleware/tenant_context.py`)

The three `ContextVar`s of `app/utils/logger.py` form the store; `set`
returns a token holding the previous value and `reset(token)` restores it.
Each `dispatch` is embedded as a function from the pre-request store and
the request's oracle data (handler outcome, presence of
`request.state.user_context`) to the post-request store. -/

/-- The request-scoped `ContextVar`s declared in `app/utils/logger.py`. -/
structure CtxStore : Type where
  request_id : Option String
  user_id : Option String
  tenant_id : Option String
  deriving DecidableEq, Repr

/-- Whether `call_next(request)` returned normally or raised. -/
inductive Outcome : Type where
  | completes : Outcome
  | raises : Outcome
  deriving DecidableEq, Repr

/-- `LoggingMiddleware.dispatch`: sets `request_id_ctx`, runs the handler,
on success optionally sets and then resets `user_id_ctx` (inner
`try/finally`), and resets `request_id_ctx` in the outer `finally` on both
the success and the exception path.  `user_context` is
`request.state.user_context.user_id` when the auth dependency attached a
user context, else `Option.none`. -/
def logging_dispatch (ctx : CtxStore) (request_id_new : String)
    (outcome : Outcome) (user_context : Option String) : CtxStore × Outcome :=
  let request_id_token := ctx.request_id
  let ctx1 := { ctx with request_id := some request_id_new }
  match outcome with
  | Outcome.raises =>
      ({ ctx1 with request_id := request_id_token }, Outcome.raises)
  | Outcome.completes =>
      match user_context with
      | some uid =>
          let user_id_token := ctx1.user_id
          let ctx2 := { ctx1 with user_id := some uid }
          let ctx3 := { ctx2 with user_id := user_id_token }
          ({ ctx3 with request_id := request_id_token }, Outcome.completes)
      | Option.none =>
          ({ ctx1 with request_id := request_id_token }, Outcome.completes)

/-- `TenantContextMiddleware.EXCLUDED_PATHS`. -/
def EXCLUDED_PATHS : List String :=
  ["/", "/docs", "/redoc", "/openapi.json", "/api/v1/health/live",
   "/api/v1/health/ready", "/api/v1/auth/callback"]

/-- `TenantContextMiddleware.dispatch`: on excluded paths or without a
`user_context` attribute it passes through untouched; otherwise it sets
`tenant_id_ctx` and resets it in a `finally` covering both handler
outcomes.  `user_context_tenant` is `request.state.user_context.tenant_id`
when the attribute is present. -/
def tenant_dispatch (ctx : CtxStore) (path : String) (outcome : Outcome)
    (user_context_tenant : Option String) : CtxStore × Outcome :=
  if EXCLUDED_PATHS.contains path || path.startsWith "/static" then
    (ctx, outcome)
  else
    match user_context_tenant with
    | some tid =>
        let tenant_token := ctx.tenant_id
        let ctx1 := { ctx with tenant_id := some tid }
        ({ ctx1 with tenant_id := tenant_token }, outcome)
    | Option.none => (ctx, outcome)

/-! ## Helper lemmas -/

/-- Candidate names whose claim values are falsy are skipped by the
extraction loop. -/
lemma extract_go_append (cfg : TenantExtractorCfg) (claims : Claims)
    (pre rest : List String)
    (hpre : ∀ n ∈ pre, (claimsGet claims n).truthy = false) :
    extract_go cfg claims (pre ++ rest) = extract_go cfg claims rest := by
  induction pre with
  | nil => rfl
  | cons a tl ih =>
      have ha := hpre a (by simp)
      rw [List.cons_append, extract_go, ha]
      simp only [Bool.false_eq_true, if_false]
      exact ih (fun n hn => hpre n (by simp [hn]))

/-- `None` is falsy. -/
@[simp] lemma ClaimValue.truthy_pyNone : ClaimValue.pyNone.truthy = false := rfl

/-- Looking up a name that is not a key of the claims dictionary yields
`pyNone`. -/
lemma claimsGet_not_mem (claims : Claims) (n : String)
    (h : n ∉ claims.map Prod.fst) : claimsGet claims n = ClaimValue.pyNone := by
  induction claims with
  | nil => rfl
  | cons p tl ih =>
      obtain ⟨k, v⟩ := p
      simp only [List.map_cons, List.mem_cons, not_or] at h
      have hk : (k == n) = false := by
        simp only [beq_eq_false_iff_ne, ne_eq]
        exact fun hkn => h.1 hkn.symm
      rw [claimsGet, hk]
      simp only [Bool.false_eq_true, if_false]
      exact ih h.2

/-- On a dictionary with unique keys, filtering out falsy values makes a
falsy entry behave exactly like an absent one. -/
lemma claimsGet_filter_truthy (claims : Claims)
    (hnodup : (claims.map Prod.fst).Nodup) (n : String) :
    claimsGet (claims.filter (fun p => p.2.truthy)) n =
      (if (claimsGet claims n).truthy then claimsGet claims n
       else ClaimValue.pyNone) := by
  induction claims with
  | nil => simp [claimsGet, ClaimValue.truthy]
  | cons p tl ih =>
      obtain ⟨k, v⟩ := p
      rw [List.map_cons, List.nodup_cons] at hnodup
      obtain ⟨hk, htl⟩ := hnodup
      by_cases hkn : k = n
      · subst hkn
        cases hv : v.truthy with
        | true => simp [List.filter_cons, hv, claimsGet]
        | false =>
            simp [List.filter_cons, hv, claimsGet, ih htl,
              claimsGet_not_mem tl k hk]
      · cases hv : v.truthy with
        | true => simp [List.filter_cons, hv, claimsGet, hkn, ih htl]
        | false => simp [List.filter_cons, hv, claimsGet, hkn, ih htl]

/-- The extraction loop cannot distinguish a claims dictionary with unique
keys from its restriction to truthy values. -/
lemma extract_go_filter (cfg : TenantExtractorCfg) (claims : Claims)
    (hnodup : (claims.map Prod.fst).Nodup) (names : List String) :
    extract_go cfg claims names =
      extract_go cfg (claims.filter (fun p => p.2.truthy)) names := by
  induction names with
  | nil => rfl
  | cons name rest ih =>
      have h := claimsGet_filter_truthy claims hnodup name
      cases ht : (claimsGet claims name).truthy with
      | true =>
          rw [extract_go, extract_go, h, ht]
          simp [ht]
      | false =>
          rw [extract_go, extract_go, h, ht]
          simpa [ht] using ih

/-- Every successful extraction returns the `str()` coercion of a truthy
candidate claim value. -/
lemma extract_go_ok_shape (cfg : TenantExtractorCfg) (claims : Claims)
    (names : List String) (s : String)
    (hok : extract_go cfg claims names = Except.ok s) :
    ∃ name ∈ names, (claimsGet claims name).truthy = true ∧
      s = (claimsGet claims name).pyStr := by
  induction names with
  | nil => simp [extract_go] at hok
  | cons name rest ih =>
      rw [extract_go] at hok
      by_cases ht : (claimsGet claims name).truthy
      · rw [if_pos ht] at hok
        refine ⟨name, by simp, ht, ?_⟩
        by_cases hvf : cfg.validate_format
        · rw [if_pos hvf] at hok
          cases hval : validate_tenant_id cfg (claimsGet claims name) with
          | none => rw [hval] at hok; cases hok; rfl
          | some e => rw [hval] at hok; cases hok
        · rw [if_neg hvf] at hok
          cases hok; rfl
      · rw [if_neg ht] at hok
        obtain ⟨n, hn, hmem⟩ := ih hok
        exact ⟨n, by simp [hn], hmem⟩

/-- All failing attempts make `_fetch_jwks` re-raise the last `httpx`
error. -/
lemma fetch_jwks_all_fail (attempts : List Attempt)
    (h : ∀ a ∈ attempts, a = Attempt.httpError) :
    fetch_jwks attempts = FetchResult.raiseHttpError := by
  induction attempts with
  | nil => rfl
  | cons a rest ih =>
      have ha := h a (by simp)
      subst ha
      rw [fetch_jwks]
      exact ih (fun x hx => h x (by simp [hx]))

/-! ## Claims -/

/-- Claim C5: when two or more configured candidate tenant claim names hold
non-empty (truthy) values, `extract_tenant_id` is decided by the first of
them in the configured priority order: it returns that claim's value
(whenever format validation is disabled or that value passes it), and any
claims dictionary agreeing on the earlier candidates and on that first
match produces the identical result, so later candidates are ignored and
the outcome is deterministic in the claims and the configured order. -/
theorem extract_tenant_id_first_claim_wins (cfg : TenantExtractorCfg)
    (claims claims2 : Claims) (pre post : List String) (name : String)
    (horder : cfg.claim_names = pre ++ name :: post)
    (hpre : ∀ n ∈ pre, (claimsGet claims n).truthy = false)
    (hname : (claimsGet claims name).truthy = true) :
    ((cfg.validate_format = false ∨
        validate_tenant_id cfg (claimsGet claims name) = Option.none) →
      extract_tenant_id cfg claims = Except.ok (claimsGet claims name).pyStr)
    ∧ ((∀ n ∈ pre, claimsGet claims2 n = claimsGet claims n) →
        claimsGet claims2 name = claimsGet claims name →
        extract_tenant_id cfg claims2 = extract_tenant_id cfg claims) := by
  constructor
  · intro hval
    unfold extract_tenant_id
    rw [horder, extract_go_append cfg claims pre _ hpre, extract_go,
      if_pos hname]
    rcases hval with h | h
    · rw [if_neg (by simp [h])]
    · by_cases hvf : cfg.validate_format
      · rw [if_pos hvf, h]
      · rw [if_neg hvf]
  · intro h2 hsame
    unfold extract_tenant_id
    rw [horder, extract_go_append cfg claims pre _ hpre,
      extract_go_append cfg claims2 pre _
        (fun n hn => by rw [h2 n hn]; exact hpre n hn),
      extract_go, extract_go, hsame]
    simp [hname]

/-- Witness for C5 at the default configuration: with both `tenant_id` and
`organization_id` populated, the first configured claim (`tenant_id`) wins,
and changing the later `organization_id` value does not change the
result. -/
theorem extract_tenant_id_first_claim_wins_witness :
    extract_tenant_id defaultExtractor
        [("tenant_id", ClaimValue.str "t-123"),
         ("organization_id", ClaimValue.str "org-456")]
      = Except.ok "t-123"
    ∧ extract_tenant_id defaultExtractor
        [("tenant_id", ClaimValue.str "t-123"),
         ("organization_id", ClaimValue.str "other")]
      = extract_tenant_id defaultExtractor
        [("tenant_id", ClaimValue.str "t-123"),
         ("organization_id", ClaimValue.str "org-456")] := by
  have h := extract_tenant_id_first_claim_wins defaultExtractor
    [("tenant_id", ClaimValue.str "t-123"),
     ("organization_id", ClaimValue.str "org-456")]
    [("tenant_id", ClaimValue.str "t-123"),
     ("organization_id", ClaimValue.str "other")]
    [] ["organization_id", "org_id", "custom:tenant_id"] "tenant_id"
    rfl (by simp) (by rfl)
  exact ⟨h.1 (Or.inr (by rfl)), h.2 (by simp) (by rfl)⟩

/-- Claim C6 (code evaluated at the failing input): with format validation
enabled and defaults, the value `"abc\n"` contains a character outside
`[a-zA-Z0-9_-]`, yet `extract_tenant_id` accepts and returns it instead of
raising `InvalidTenantFormatError`, because Python's `$` in
`^[a-zA-Z0-9_-]+$` also matches just before a single trailing newline. -/
theorem extract_tenant_id_trailing_newline_accepted :
    extract_tenant_id defaultExtractor
        [("tenant_id", ClaimValue.str "abc\n")]
      = Except.ok "abc\n" := by rfl

/-- Claim C10: on a claims dictionary with unique keys, falsy candidate
values (empty string, `0`, `False`, `None`) are skipped exactly as if the
claim were absent (so they never produce a format error); every successful
extraction returns the `str()` coercion of the matched truthy value; and
with format validation disabled, the first truthy candidate value — e.g. a
non-string integer — is returned as its string form rather than
rejected. -/
theorem extract_tenant_id_falsy_skipped_and_str_coerced
    (cfg : TenantExtractorCfg) (claims : Claims)
    (hnodup : (claims.map Prod.fst).Nodup) :
    extract_tenant_id cfg claims =
        extract_tenant_id cfg (claims.filter (fun p => p.2.truthy))
    ∧ (∀ s, extract_tenant_id cfg claims = Except.ok s →
        ∃ name ∈ cfg.claim_names, (claimsGet claims name).truthy = true ∧
          s = (claimsGet claims name).pyStr)
    ∧ (cfg.validate_format = false →
        ∀ pre post name, cfg.claim_names = pre ++ name :: post →
          (∀ n ∈ pre, (claimsGet claims n).truthy = false) →
          (claimsGet claims name).truthy = true →
          extract_tenant_id cfg claims =
            Except.ok (claimsGet claims name).pyStr) := by
  refine ⟨extract_go_filter cfg claims hnodup cfg.claim_names,
    fun s hok => extract_go_ok_shape cfg claims cfg.claim_names s hok,
    fun hvf pre post name horder hpre hname => ?_⟩
  unfold extract_tenant_id
  rw [horder, extract_go_append cfg claims pre _ hpre, extract_go,
    if_pos hname, if_neg (by simp [hvf])]

/-- Witness for C10: `tenant_id = 0` is falsy and skipped without a format
error, and with validation disabled the integer `organization_id = 123` is
returned as the string `"123"`. -/
theorem extract_tenant_id_falsy_skipped_and_str_coerced_witness :
    extract_tenant_id
        { claim_names := DEFAULT_CLAIM_NAMES, validate_format := false,
          min_length := 3, max_length := 128 }
        [("tenant_id", ClaimValue.int 0), ("organization_id", ClaimValue.int 123)]
      = Except.ok "123" :=
  (extract_tenant_id_falsy_skipped_and_str_coerced
      { claim_names := DEFAULT_CLAIM_NAMES, validate_format := false,
        min_length := 3, max_length := 128 }
      [("tenant_id", ClaimValue.int 0), ("organization_id", ClaimValue.int 123)]
      (by simp)).2.2 rfl
    ["tenant_id"] ["org_id", "custom:tenant_id"] "organization_id"
    rfl (by intro n hn; simp at hn; subst hn; rfl) (by rfl)

/-- The exact-rational form of Python's comparison
`(exp - iat) / 60 > max_lifetime_minutes` is equivalent to the integer
bound `60 * max < exp - iat`. -/
lemma lifetime_div_iff (e i m : Int) :
    (((e - i : Int) : ℚ) / 60 > (m : ℚ)) ↔ 60 * m < e - i := by
  rw [gt_iff_lt, lt_div_iff₀ (by norm_num : (0 : ℚ) < 60)]
  rw [show ((m : ℚ) * 60) = ((m * 60 : Int) : ℚ) by push_cast; ring]
  rw [Int.cast_lt]
  omega

/-- Claim C2: once the signature and standard claims have been accepted
(`jwt.decode` returned the claims) and `iat`/`exp` are non-zero integers,
`validate_token` fails with the invalid-claim error whenever
`exp - iat` exceeds `60 * max_lifetime_minutes` seconds — even though
`exp` itself may lie in the future — and returns the claims when
`exp - iat` is at most the maximum, so the lifetime check passes. -/
theorem validate_token_lifetime_cap (maxMin : Int) (kid : String)
    (claims : Claims) (i e : Int) (hkid : kid ≠ "")
    (hiat : claimsGet claims "iat" = ClaimValue.int i) (hi : i ≠ 0)
    (hexp : claimsGet claims "exp" = ClaimValue.int e) (he : e ≠ 0) :
    (60 * maxMin < e - i →
      validate_token maxMin
          { header := HeaderResult.ok (some kid), key := KeyResult.ok,
            decode := DecodeResult.ok claims }
        = Except.error VError.invalidClaim)
    ∧ (e - i ≤ 60 * maxMin →
      validate_token maxMin
          { header := HeaderResult.ok (some kid), key := KeyResult.ok,
            decode := DecodeResult.ok claims }
        = Except.ok claims) := by
  constructor
  · intro hlt
    have hdiv : (((e - i : Int) : ℚ) / 60 > (maxMin : ℚ)) :=
      (lifetime_div_iff e i maxMin).mpr hlt
    have hdiv2 : ((maxMin : ℚ) < ((e : ℚ) - (i : ℚ)) / 60) := by
      push_cast at hdiv
      exact hdiv
    simp [validate_token, hkid, validate_token_lifetime, hiat, hexp,
      ClaimValue.truthy, ClaimValue.pyNum, hi, he, hdiv, hdiv2]
  · intro hle
    have hdiv : ¬ (((e - i : Int) : ℚ) / 60 > (maxMin : ℚ)) := by
      rw [lifetime_div_iff]
      omega
    have hdiv2 : ¬ ((maxMin : ℚ) < ((e : ℚ) - (i : ℚ)) / 60) := by
      push_cast at hdiv
      exact hdiv
    simp [validate_token, hkid, validate_token_lifetime, hiat, hexp,
      ClaimValue.truthy, ClaimValue.pyNum, hi, he, hdiv, hdiv2]

/-- Witness for C2: with the default 60-minute cap, a token with
`exp - iat = 5400` seconds (90 minutes) is rejected with the invalid-claim
error although its `exp` is in the future, and a token with
`exp - iat = 3600` seconds passes and returns its claims. -/
theorem validate_token_lifetime_cap_witness :
    validate_token 60
        { header := HeaderResult.ok (some "key-1"), key := KeyResult.ok,
          decode := DecodeResult.ok
            [("iat", ClaimValue.int 1000), ("exp", ClaimValue.int 6400)] }
      = Except.error VError.invalidClaim
    ∧ validate_token 60
        { header := HeaderResult.ok (some "key-1"), key := KeyResult.ok,
          decode := DecodeResult.ok
            [("iat", ClaimValue.int 1000), ("exp", ClaimValue.int 4600)] }
      = Except.ok [("iat", ClaimValue.int 1000), ("exp", ClaimValue.int 4600)] :=
  ⟨(validate_token_lifetime_cap 60 "key-1"
        [("iat", ClaimValue.int 1000), ("exp", ClaimValue.int 6400)]
        1000 6400 (by decide) rfl (by decide) rfl (by decide)).1 (by norm_num),
   (validate_token_lifetime_cap 60 "key-1"
        [("iat", ClaimValue.int 1000), ("exp", ClaimValue.int 4600)]
        1000 4600 (by decide) rfl (by decide) rfl (by decide)).2 (by norm_num)⟩

/-- Claim C8: the lifetime step requires `iat` and `exp` to be present and
truthy — if either is absent or equal to `0` (a token issued exactly at
the Unix epoch), `_validate_token_lifetime` raises the invalid-claim error
instead of computing `exp - iat`, and `validate_token` therefore fails
with that error even after a valid signature and valid standard claims. -/
theorem validate_token_lifetime_requires_iat_exp (maxMin : Int)
    (kid : String) (claims : Claims) (hkid : kid ≠ "")
    (h : claimsGet claims "iat" = ClaimValue.pyNone ∨
         claimsGet claims "iat" = ClaimValue.int 0 ∨
         claimsGet claims "exp" = ClaimValue.pyNone ∨
         claimsGet claims "exp" = ClaimValue.int 0) :
    validate_token_lifetime maxMin claims =
        LifetimeOutcome.invalidClaim "missing iat or exp"
    ∧ validate_token maxMin
        { header := HeaderResult.ok (some kid), key := KeyResult.ok,
          decode := DecodeResult.ok claims }
      = Except.error VError.invalidClaim := by
  have h1 : validate_token_lifetime maxMin claims =
      LifetimeOutcome.invalidClaim "missing iat or exp" := by
    rcases h with h | h | h | h <;>
      simp [validate_token_lifetime, h, ClaimValue.truthy]
  exact ⟨h1, by simp [validate_token, hkid, h1]⟩

/-- Witness for C8: a token issued exactly at the Unix epoch
(`iat = 0`) with a future `exp` fails the lifetime step with the
invalid-claim error. -/
theorem validate_token_lifetime_requires_iat_exp_witness :
    validate_token_lifetime 60
        [("iat", ClaimValue.int 0), ("exp", ClaimValue.int 4600)]
      = LifetimeOutcome.invalidClaim "missing iat or exp"
    ∧ validate_token 60
        { header := HeaderResult.ok (some "key-1"), key := KeyResult.ok,
          decode := DecodeResult.ok
            [("iat", ClaimValue.int 0), ("exp", ClaimValue.int 4600)] }
      = Except.error VError.invalidClaim :=
  validate_token_lifetime_requires_iat_exp 60 "key-1"
    [("iat", ClaimValue.int 0), ("exp", ClaimValue.int 4600)]
    (by decide) (Or.inr (Or.inl rfl))

/-- Claim C9: a token whose header carries `"kid": ""` is treated exactly
like one with no `kid` at all — `validate_token` fails with the
invalid-claim error whatever the key-lookup and decode oracles would have
answered, so no key lookup or signature verification takes place. -/
theorem validate_token_empty_kid_like_missing (maxMin : Int)
    (key : KeyResult) (dec : DecodeResult) :
    validate_token maxMin
        { header := HeaderResult.ok (some ""), key := key, decode := dec }
      = Except.error VError.invalidClaim
    ∧ validate_token maxMin
        { header := HeaderResult.ok (some ""), key := key, decode := dec }
      = validate_token maxMin
        { header := HeaderResult.ok Option.none, key := key, decode := dec } :=
  ⟨rfl, rfl⟩

/-- Claim C1, counterexample to the claim as stated: on a fresh cache with
every fetch attempt failing (e.g. HTTP 500 on all three retries),
`get_signing_key` fails with the key-not-found `ValueError`, which the
claim rules out ("not a key-not-found error"). -/
theorem get_signing_key_all_fail_counterexample :
    (get_signing_key { ttl_seconds := 3600, max_retries := 3 }
        initialCacheState 0
        [Attempt.httpError, Attempt.httpError, Attempt.httpError]
        [Attempt.httpError, Attempt.httpError, Attempt.httpError]
        "kid-1").2
      = Except.error (SigningKeyError.keyNotFound "kid-1") := by rfl

/-- Claim C1 as amended: for every kid, when every JWKS fetch attempt fails
and no cached key set exists, `get_signing_key` fails with the
key-not-found `ValueError` — not a typed fetch error, because
`_refresh_cache` swallows the fetch failure — and the cache state is left
unchanged, so no exception type from the underlying HTTP library reaches
the caller (`SigningKeyError` is the entire set of raisable errors). -/
theorem get_signing_key_all_fetches_fail (cfg : CacheCfg) (now : ℚ)
    (fExp fMiss : List Attempt) (kid : String)
    (h1 : ∀ a ∈ fExp, a = Attempt.httpError)
    (h2 : ∀ a ∈ fMiss, a = Attempt.httpError) :
    get_signing_key cfg initialCacheState now fExp fMiss kid =
      (initialCacheState, Except.error (SigningKeyError.keyNotFound kid)) := by
  simp [get_signing_key, get_key, is_cache_expired, initialCacheState,
    refresh_cache, fetch_jwks_all_fail fExp h1, fetch_jwks_all_fail fMiss h2,
    keysGet]

/-- Witness for the amended C1 at three failed attempts per fetch. -/
theorem get_signing_key_all_fetches_fail_witness :
    get_signing_key { ttl_seconds := 3600, max_retries := 3 }
        initialCacheState 0
        [Attempt.httpError, Attempt.httpError, Attempt.httpError]
        [Attempt.httpError, Attempt.httpError, Attempt.httpError]
        "kid-1"
      = (initialCacheState,
         Except.error (SigningKeyError.keyNotFound "kid-1")) :=
  get_signing_key_all_fetches_fail { ttl_seconds := 3600, max_retries := 3 }
    0 [Attempt.httpError, Attempt.httpError, Attempt.httpError]
    [Attempt.httpError, Attempt.httpError, Attempt.httpError] "kid-1"
    (by intro a ha; simpa using ha) (by intro a ha; simpa using ha)

/-- Claim C4: a refresh whose fetch fails (all retries exhausted) leaves
the cached key mapping and the last-fetch timestamp exactly as they were —
the state after `_refresh_cache` equals the state before it. -/
theorem refresh_cache_failure_preserves_state (st : CacheState)
    (attempts : List Attempt) (now : ℚ)
    (h : fetch_jwks attempts = FetchResult.raiseHttpError) :
    refresh_cache st attempts now = st := by
  simp [refresh_cache, h]

/-- Witness for C4: a populated snapshot survives a failed refresh
untouched. -/
theorem refresh_cache_failure_preserves_state_witness :
    refresh_cache
        { keys := [("kid-1", { kid := some "kid-1", constructible := true,
                               material := "rsa-1" })],
          cache_time := some 5 }
        [Attempt.httpError] 100
      = { keys := [("kid-1", { kid := some "kid-1", constructible := true,
                               material := "rsa-1" })],
          cache_time := some 5 } :=
  refresh_cache_failure_preserves_state
    { keys := [("kid-1", { kid := some "kid-1", constructible := true,
                           material := "rsa-1" })],
      cache_time := some 5 }
    [Attempt.httpError] 100 rfl

/-- Claim C3, counterexample to the claim as stated: with the default TTL
of 3600 seconds, a background-refresh iteration whose fetch fails retains
the old snapshot but then sleeps the full TTL (3600 s, not the 60-second
cooldown) before the loop continues, because `_refresh_cache` swallows the
failure and the `except ... sleep(60)` branch never runs. -/
theorem background_refresh_cooldown_counterexample :
    (background_refresh_iteration { ttl_seconds := 3600, max_retries := 3 }
        initialCacheState 0
        [Attempt.httpError, Attempt.httpError, Attempt.httpError]).2.1
      = initialCacheState
    ∧ (background_refresh_iteration { ttl_seconds := 3600, max_retries := 3 }
        initialCacheState 0
        [Attempt.httpError, Attempt.httpError, Attempt.httpError]).2.2
      = 3600
    ∧ (background_refresh_iteration { ttl_seconds := 3600, max_retries := 3 }
        initialCacheState 0
        [Attempt.httpError, Attempt.httpError, Attempt.httpError]).2.2
      ≠ 60 := by
  refine ⟨rfl, rfl, ?_⟩
  norm_num [background_refresh_iteration]

/-- Claim C3 as amended: when a background refresh cycle's fetch fails,
the task retains the old snapshot, sleeps the full TTL (not a 60-second
cooldown, which is unreachable because `_refresh_cache` swallows fetch
errors), and the following iteration's stale-wait is zero, so the next
refresh attempt happens exactly one full TTL after the failed one. -/
theorem background_refresh_failure_full_ttl (cfg : CacheCfg)
    (st : CacheState) (now : ℚ) (attempts attempts2 : List Attempt)
    (hfail : fetch_jwks attempts = FetchResult.raiseHttpError)
    (httl : 0 ≤ cfg.ttl_seconds)
    (hpast : ∀ t, st.cache_time = some t → t ≤ now) :
    (background_refresh_iteration cfg st now attempts).2.1 = st
    ∧ (background_refresh_iteration cfg st now attempts).2.2 =
        cfg.ttl_seconds
    ∧ (background_refresh_iteration cfg st
        (now + (background_refresh_iteration cfg st now attempts).1 +
          cfg.ttl_seconds)
        attempts2).1 = 0 := by
  refine ⟨by simp [background_refresh_iteration, refresh_cache, hfail],
    rfl, ?_⟩
  cases hct : st.cache_time with
  | none => simp [background_refresh_iteration, hct]
  | some t =>
      have ht := hpast t hct
      simp only [background_refresh_iteration, hct]
      rw [max_eq_left]
      have hw : (0 : ℚ) ≤ max 0 (cfg.ttl_seconds * (4 / 5) - (now - t)) :=
        le_max_left 0 _
      nlinarith [hw, ht, httl]

/-- Witness for the amended C3: fresh cache, TTL 3600, failing fetch — the
snapshot is kept, the post-refresh sleep is the full TTL, and the next
iteration's stale-wait is zero. -/
theorem background_refresh_failure_full_ttl_witness :
    (background_refresh_iteration { ttl_seconds := 3600, max_retries := 3 }
        initialCacheState 0 [Attempt.httpError]).2.1 = initialCacheState
    ∧ (background_refresh_iteration { ttl_seconds := 3600, max_retries := 3 }
        initialCacheState 0 [Attempt.httpError]).2.2 = 3600
    ∧ (background_refresh_iteration { ttl_seconds := 3600, max_retries := 3 }
        initialCacheState
        (0 + (background_refresh_iteration
            { ttl_seconds := 3600, max_retries := 3 }
            initialCacheState 0 [Attempt.httpError]).1 + 3600)
        [Attempt.httpError]).1 = 0 :=
  background_refresh_failure_full_ttl
    { ttl_seconds := 3600, max_retries := 3 } initialCacheState 0
    [Attempt.httpError] [Attempt.httpError] rfl (by norm_num)
    (by intro t h; simp [initialCacheState] at h)

/-- Claim C7: whichever way the handler ends (normal completion or an
exception), both middleware `dispatch` functions restore every
request-scoped context variable — `request_id` and `user_id` in the
logging middleware, `tenant_id` in the tenant-context middleware — to its
pre-request value before returning, so nothing leaks into a subsequently
handled request. -/
theorem middleware_context_restored (ctx : CtxStore)
    (request_id_new : String) (outcome : Outcome)
    (user_context : Option String) (path : String)
    (user_context_tenant : Option String) :
    (logging_dispatch ctx request_id_new outcome user_context).1 = ctx
    ∧ (tenant_dispatch ctx path outcome user_context_tenant).1 = ctx := by
  constructor
  · cases outcome with
    | raises => rfl
    | completes => cases user_context <;> rfl
  · rw [tenant_dispatch.eq_def]
    cases h : (EXCLUDED_PATHS.contains path || path.startsWith "/static") with
    | true => rfl
    | false => cases user_context_tenant <;> rfl

end HipaaStack
